import Mathlib

/-
Shallow embedding of the tftp-rs engine (RFC 1350 TFTP state machine).
Sources embedded: src/constants.rs, src/errors.rs, src/serial.rs,
src/machine.rs.  Byte buffers are modelled as lists of naturals below 256;
the fixed 512-byte receive array of the Rust code is modelled by
List.getD with default 0, matching a zero-initialised array.  Rust usize
arithmetic that can panic (underflow of length - FIXED_DATA_BYTES, slice
writes past the end of the 512-byte transmit buffer) is modelled by an
explicit panic outcome.
-/

set_option maxRecDepth 100000

namespace Tftprs

/-! ### constants.rs -/

def MAX_PACKET_SIZE : Nat := 512

/-- OpCode enum: the five TFTP packet kinds (constants.rs). -/
inductive OpCode where
  | ReadRequest
  | WriteRequest
  | Data
  | Acknowledgement
  | Error
deriving DecidableEq, Repr

/-- TryFrom u16 for OpCode (constants.rs): values 1..5 map to the five
kinds, anything else is rejected. -/
def OpCode.fromU16 (value : Nat) : Option OpCode :=
  if value = 1 then some .ReadRequest
  else if value = 2 then some .WriteRequest
  else if value = 3 then some .Data
  else if value = 4 then some .Acknowledgement
  else if value = 5 then some .Error
  else none

/-- TEXT_MODE = "NETASCII" as ASCII bytes. -/
def TEXT_MODE : List Nat := [78, 69, 84, 65, 83, 67, 73, 73]

/-- BINARY_MODE = "OCTET" as ASCII bytes. -/
def BINARY_MODE : List Nat := [79, 67, 84, 69, 84]

def FIXED_REQUEST_BYTES : Nat := 4
def FIXED_DATA_BYTES : Nat := 4
def MAX_DATA_SIZE : Nat := MAX_PACKET_SIZE - FIXED_DATA_BYTES

/-- Mode enum (constants.rs): Text (NETASCII) or Binary (OCTET). -/
inductive Mode where
  | Text
  | Binary
deriving DecidableEq, Repr

/-- RequestType enum (constants.rs): Read = 1, Write = 2. -/
inductive RequestType where
  | Read
  | Write
deriving DecidableEq, Repr

def RequestType.toU16 : RequestType → Nat
  | .Read => 1
  | .Write => 2

/-- ErrorCode enum (constants.rs). -/
inductive ErrorCode where
  | Undefined
  | FileNotFound
  | AccessViolation
  | DiskFull
  | IllegalOperation
  | UnknownTransferId
  | FileAlreadyExists
  | NoSuchUser
deriving DecidableEq, Repr

def ErrorCode.toU16 : ErrorCode → Nat
  | .Undefined => 0
  | .FileNotFound => 1
  | .AccessViolation => 2
  | .DiskFull => 3
  | .IllegalOperation => 4
  | .UnknownTransferId => 5
  | .FileAlreadyExists => 6
  | .NoSuchUser => 7

/-! ### errors.rs -/

/-- TftprsError enum (errors.rs). -/
inductive TftprsError where
  | BadRequestAttempted
  | BadPacketReceived
  | Busy
  | NoConnection
  | NoFile
  | ErrorResponse (code : Nat) (message : List Nat)
deriving DecidableEq, Repr

/-! ### serial.rs -/

/-- Big-endian byte pair of a u16 value (u16::to_be_bytes). -/
def u16be (n : Nat) : List Nat := [n / 256 % 256, n % 256]

/-- The wire mode string chosen for a Mode (the match used by
Request::serialize in serial.rs). -/
def mode_string : Mode → List Nat
  | Mode.Text => TEXT_MODE
  | Mode.Binary => BINARY_MODE

/-- Request packet (serial.rs): opcode, filename, mode. -/
structure Request where
  request : RequestType
  filename : List Nat
  mode : Mode
deriving DecidableEq, Repr

/-- Request::filename_fits (serial.rs): the filename must leave room for
the 4 fixed bytes (2 opcode + 2 NUL terminators) and the mode string. -/
def Request.filename_fits (mode : Mode) (filename : List Nat) : Bool :=
  let mode_size := match mode with
    | Mode.Text => TEXT_MODE.length
    | Mode.Binary => BINARY_MODE.length
  let max_filename_size := MAX_PACKET_SIZE - FIXED_REQUEST_BYTES - mode_size
  filename.length ≤ max_filename_size

/-- Request::new (serial.rs): rejects a filename that does not fit. -/
def Request.new (request : RequestType) (mode : Mode) (filename : List Nat) :
    Except TftprsError Request :=
  if Request.filename_fits mode filename then
    .ok ⟨request, filename, mode⟩
  else
    .error TftprsError.BadRequestAttempted

/-- Serial for Request (serial.rs): returns the bytes written; writes
nothing (count 0) when the filename does not fit.  When it fits, the
total 2 + filename + 1 + mode string + 1 is at most 512, so every
write_bytes call stays inside the transmit buffer. -/
def Request.serialize (r : Request) : List Nat :=
  if ¬ Request.filename_fits r.mode r.filename then []
  else
    u16be r.request.toU16 ++ r.filename ++ [0x0] ++ mode_string r.mode ++ [0x0]

/-- Data packet (serial.rs): block number and a borrowed file buffer. -/
structure Data where
  block : Nat
  data : List Nat
deriving DecidableEq, Repr

/-- Data::new (serial.rs): rejects block 0 and an offset past the end of
the file. -/
def Data.new (block : Nat) (data : List Nat) : Option Data :=
  if block = 0 then none
  else if (block - 1) * MAX_DATA_SIZE > data.length then none
  else some ⟨block, data⟩

/-- Data::offset (serial.rs). -/
def Data.offset (d : Data) : Nat := (d.block - 1) * MAX_DATA_SIZE

/-- Serial for Data (serial.rs): opcode 3, block, then
min(MAX_DATA_SIZE, remaining bytes) of payload starting at the offset.
Data::new guarantees offset ≤ data length, so the usize subtraction and
the slice are in bounds. -/
def Data.serialize (d : Data) : List Nat :=
  let count := min MAX_DATA_SIZE (d.data.length - d.offset)
  u16be 3 ++ u16be d.block ++ (d.data.drop d.offset).take count

/-- Ack packet (serial.rs). -/
structure Ack where
  block : Nat
deriving DecidableEq, Repr

def Ack.new (block : Nat) : Ack := ⟨block⟩

/-- Serial for Ack (serial.rs): opcode 4 then the block, 4 bytes. -/
def Ack.serialize (a : Ack) : List Nat :=
  u16be 4 ++ u16be a.block

/-- ErrorResponse packet (serial.rs). -/
structure ErrorResponse where
  code : ErrorCode
  message : List Nat
deriving DecidableEq, Repr

def ErrorResponse.new (error_code : ErrorCode) (message : List Nat) :
    ErrorResponse := ⟨error_code, message⟩

/-- Serial for ErrorResponse (serial.rs): opcode 5, code, message.  The
third write_bytes call copies the message to buffer[4 .. 4 + len]; when
4 + len exceeds MAX_PACKET_SIZE the slice index is out of range and Rust
panics, modelled as none. -/
def ErrorResponse.serialize (e : ErrorResponse) : Option (List Nat) :=
  if 4 + e.message.length > MAX_PACKET_SIZE then none
  else some (u16be 5 ++ u16be e.code.toU16 ++ e.message)

/-! ### machine.rs -/

def TERMINATOR_BYTE : Nat := 0x0

/-- Machine struct (machine.rs): the transfer engine state.  The two
borrowed Vec references are modelled by their contents. -/
structure Machine where
  request_type : Option RequestType
  incoming_file : Option (List Nat)
  outgoing_file : Option (List Nat)
  mode : Mode
  block : Nat
deriving DecidableEq, Repr

/-- Result of a fallible Rust call that may also panic: Ok value, typed
error, or a panic (debug-mode integer underflow or slice overrun). -/
inductive PResult (α : Type) where
  | ok : α → PResult α
  | err : TftprsError → PResult α
  | panic : PResult α
deriving DecidableEq, Repr

/-- One engine call: the returned Result, the machine state afterwards,
and the bytes written into the transmit buffer (empty when nothing was
written).  On a panic the machine field records the state at the point
of the panic. -/
structure Step where
  result : PResult Nat
  machine : Machine
  out : List Nat
deriving DecidableEq, Repr

/-- Machine::reset (machine.rs): drop the role, both file references and
the block counter (the mode is kept). -/
def Machine.reset (m : Machine) : Machine :=
  { m with request_type := none, incoming_file := none,
           outgoing_file := none, block := 0 }

/-- Machine::new (machine.rs): default state then reset. -/
def Machine.new : Machine :=
  Machine.reset ⟨none, none, none, Mode.Binary, 0⟩

/-- Machine::is_busy (machine.rs). -/
def Machine.is_busy (m : Machine) : Bool :=
  m.request_type.isSome

/-- u16::from_be_bytes of the two received bytes starting at index i. -/
def readU16 (received : List Nat) (i : Nat) : Nat :=
  256 * received.getD i 0 + received.getD (i + 1) 0

/-- Loop body of Machine::parse_string (machine.rs), with explicit fuel.
Reads bytes until the terminator; pushing a byte advances the cursor and
the read fails once the cursor reaches the limit.  The fuel equals
limit - cursor, so exhausted fuel coincides with the cursor-limit
check of the source. -/
def parse_string_loop (received : List Nat) :
    Nat → Nat → Nat → Option (List Nat × Nat)
  | cursor, _, 0 =>
    if received.getD cursor 0 = TERMINATOR_BYTE then some ([], cursor + 1)
    else none
  | cursor, limit, fuel + 1 =>
    if received.getD cursor 0 = TERMINATOR_BYTE then some ([], cursor + 1)
    else if cursor + 1 ≥ limit then none
    else
      match parse_string_loop received (cursor + 1) limit fuel with
      | some (s, c) => some (received.getD cursor 0 :: s, c)
      | none => none

/-- Machine::parse_string (machine.rs): parse a NUL-terminated string
from the cursor, failing if the cursor reaches the limit first; returns
the string bytes and the cursor moved past the terminator. -/
def parse_string (received : List Nat) (cursor limit : Nat) :
    Option (List Nat × Nat) :=
  parse_string_loop received cursor limit (limit - cursor)

/-- Machine::parse_request (machine.rs): parse filename and mode string
from offset 2; the mode must equal "NETASCII" or "OCTET" exactly (the
comparison is String::eq).  On success the machine records the mode. -/
def Machine.parse_request (m : Machine) (received : List Nat) :
    PResult (List Nat) × Machine :=
  match parse_string received 2 (MAX_PACKET_SIZE - BINARY_MODE.length - 2) with
  | none => (.err TftprsError.BadPacketReceived, m)
  | some (filename, cursor) =>
    match parse_string received cursor (MAX_PACKET_SIZE - 1) with
    | none => (.err TftprsError.BadPacketReceived, m)
    | some (mode, _) =>
      if mode = TEXT_MODE then (.ok filename, { m with mode := Mode.Text })
      else if mode = BINARY_MODE then
        (.ok filename, { m with mode := Mode.Binary })
      else (.err TftprsError.BadPacketReceived, m)

/-- Machine::check_block_on_message (machine.rs): the u16 at bytes 2..4
must equal the expected block. -/
def Machine.check_block_on_message (m : Machine) (received : List Nat) :
    Option TftprsError :=
  if readU16 received 2 ≠ m.block then some TftprsError.BadPacketReceived
  else none

/-- Machine::send_block (machine.rs): serialize the current block of the
outgoing file; when Data::new rejects the block (offset past the end of
the file) reset and report 0 bytes. -/
def Machine.send_block (m : Machine) : Step :=
  match m.outgoing_file with
  | some file =>
    match Data.new m.block file with
    | some data => ⟨.ok (Data.serialize data).length, m, Data.serialize data⟩
    | none => ⟨.ok 0, m.reset, []⟩
  | none => ⟨.err TftprsError.NoFile, m, []⟩

/-- Machine::handle_ack_and_send_next_block (machine.rs). -/
def Machine.handle_ack_and_send_next_block (m : Machine)
    (received : List Nat) : Step :=
  match m.check_block_on_message received with
  | some e => ⟨.err e, m, []⟩
  | none =>
    if m.block = 65535 then
      ⟨.ok 0, m.reset, []⟩
    else
      Machine.send_block { m with block := m.block + 1 }

/-- Machine::send_ack (machine.rs): serialize an Ack for the current
block (4 bytes). -/
def Machine.send_ack (m : Machine) : Step :=
  ⟨.ok ((Ack.new m.block).serialize).length, m, (Ack.new m.block).serialize⟩

/-- Machine::handle_data_and_send_ack (machine.rs): check the block,
append the payload to the incoming file, reset when the payload is short
or the block counter is at its maximum, then send an Ack for the block
the machine holds after that possible reset, and finally increment the
block. -/
def Machine.handle_data_and_send_ack (m : Machine) (received : List Nat)
    (length : Nat) : Step :=
  match m.check_block_on_message received with
  | some e => ⟨.err e, m, []⟩
  | none =>
    match m.incoming_file with
    | none => ⟨.err TftprsError.NoFile, m, []⟩
    | some file =>
      let file2 := file ++
        (List.range length).map
          (fun i => received.getD (FIXED_DATA_BYTES + i) 0)
      let m1 : Machine := { m with incoming_file := some file2 }
      let m2 := if length < MAX_DATA_SIZE ∨ m1.block = 65535 then
          m1.reset
        else m1
      let ackStep := m2.send_ack
      ⟨ackStep.result, { ackStep.machine with block := ackStep.machine.block + 1 },
        ackStep.out⟩

/-- Machine::send_error (machine.rs): serialize an Error packet with the
given code and message (default "Unknown error"), then reset.  When the
message is longer than 508 bytes the serializer overruns the 512-byte
buffer and panics before the reset. -/
def Machine.send_error (m : Machine) (code : ErrorCode)
    (message : Option (List Nat)) : Step :=
  let error_message := ErrorResponse.new code
    (message.getD [85, 110, 107, 110, 111, 119, 110, 32, 101, 114, 114, 111, 114])
  match error_message.serialize with
  | some out => ⟨.ok out.length, m.reset, out⟩
  | none => ⟨.panic, m, []⟩

/-- Machine::process (machine.rs): the per-datagram step.  In the Data
arm the source computes length - FIXED_DATA_BYTES on usize before the
call; for length below 4 this underflows and panics. -/
def Machine.process (m : Machine) (received : List Nat) (length : Nat) :
    Step :=
  if ¬ m.is_busy then ⟨.err TftprsError.NoConnection, m, []⟩
  else if length > MAX_PACKET_SIZE then
    m.send_error ErrorCode.IllegalOperation none
  else
    match OpCode.fromU16 (readU16 received 0) with
    | some OpCode.Acknowledgement =>
      if m.request_type = some RequestType.Write then
        m.handle_ack_and_send_next_block received
      else ⟨.err TftprsError.BadPacketReceived, m, []⟩
    | some OpCode.Data =>
      if m.request_type = some RequestType.Read then
        if length < FIXED_DATA_BYTES then ⟨.panic, m, []⟩
        else m.handle_data_and_send_ack received (length - FIXED_DATA_BYTES)
      else ⟨.err TftprsError.BadPacketReceived, m, []⟩
    | some OpCode.Error => ⟨.ok 0, m.reset, []⟩
    | some _ => ⟨.err TftprsError.Busy, m, []⟩
    | none => m.send_error ErrorCode.IllegalOperation none

/-- Machine::request_receive_file (machine.rs): start an outgoing read
request (the peer will send the file). -/
def Machine.request_receive_file (m : Machine) (filename : List Nat)
    (file : List Nat) : Step :=
  if m.is_busy then ⟨.err TftprsError.Busy, m, []⟩
  else if file.length > 65535 * MAX_DATA_SIZE then
    ⟨.err TftprsError.BadRequestAttempted, m, []⟩
  else
    let m1 : Machine := { m with block := 1 }
    match Request.new RequestType.Read m1.mode filename with
    | .ok request =>
      let count := (Request.serialize request).length
      if count > 0 then
        ⟨.ok count,
          { m1 with incoming_file := some file,
                    request_type := some RequestType.Read },
          Request.serialize request⟩
      else ⟨.err TftprsError.BadRequestAttempted, m1, []⟩
    | .error _ => ⟨.err TftprsError.BadRequestAttempted, m1, []⟩

/-- Machine::reply_receive_file (machine.rs): reply to an inbound write
request by attaching the file, setting block 0 and sending an Ack.  The
only guard is that the machine is busy. -/
def Machine.reply_receive_file (m : Machine) (file : List Nat) : Step :=
  if ¬ m.is_busy then ⟨.err TftprsError.NoConnection, m, []⟩
  else
    Machine.send_ack { m with incoming_file := some file, block := 0 }

/-- Machine::listen_for_request (machine.rs): while idle, decode an
inbound Request; a write request makes the local role Read, a read
request makes it Write; Data/Ack/Error give NoConnection and an
unrecognised opcode gives BadPacketReceived. -/
def Machine.listen_for_request (m : Machine) (received : List Nat) :
    PResult (List Nat) × Machine :=
  if m.is_busy then (.err TftprsError.Busy, m)
  else
    match OpCode.fromU16 (readU16 received 0) with
    | some OpCode.WriteRequest =>
      match m.parse_request received with
      | (.ok filename, m1) =>
        (.ok filename, { m1 with request_type := some RequestType.Read })
      | other => other
    | some OpCode.ReadRequest =>
      match m.parse_request received with
      | (.ok filename, m1) =>
        (.ok filename, { m1 with request_type := some RequestType.Write })
      | other => other
    | some _ => (.err TftprsError.NoConnection, m)
    | none => (.err TftprsError.BadPacketReceived, m)

/-! ### Concrete inputs used by the claim theorems -/

/-- 512 zero bytes padding helper for receive buffers. -/
def zeros (n : Nat) : List Nat := List.replicate n 0

/-- A 508-byte file of 0x5A bytes (one full data block). -/
def file508 : List Nat := List.replicate 508 90

/-- A machine in the middle of a write transfer (role Writer) serving
file508, expecting the Ack for block b. -/
def writerM (b : Nat) : Machine :=
  ⟨some RequestType.Write, none, some file508, Mode.Binary, b⟩

/-- The machine produced by request_receive_file from idle: role Reader,
empty incoming file, expecting block 1. -/
def readerM : Machine :=
  ⟨some RequestType.Read, some [], none, Mode.Binary, 1⟩

/-- A 512-byte Ack packet buffer for block b (b below 256). -/
def ackPacket (b : Nat) : List Nat := [0, 4, 0, b] ++ zeros 508

/-- A read request for file "A" with lower-case mode string "octet". -/
def rrqLower : List Nat :=
  [0, 1, 65, 0, 111, 99, 116, 101, 116, 0] ++ zeros 502

/-- A read request for file "A" with upper-case mode string "OCTET". -/
def rrqUpper : List Nat :=
  [0, 1, 65, 0, 79, 67, 84, 69, 84, 0] ++ zeros 502

/-- An inbound Error packet, code 1, message "oops". -/
def errPacket : List Nat :=
  [0, 5, 0, 1, 111, 111, 112, 115] ++ zeros 504

/-- A packet whose leading opcode 6 is not one of the five legal values. -/
def badOpPacket : List Nat := [0, 6] ++ zeros 510

/-- The Error packet bytes produced by Machine::send_error with the
default message "Unknown error": opcode 5, code 4, 13 message bytes. -/
def unknownErrorPacket : List Nat :=
  [0, 5, 0, 4, 85, 110, 107, 110, 111, 119, 110, 32, 101, 114, 114, 111, 114]

/-! ### Claim theorems -/

/-- Claim C1 (code bug): the spec requires that Process never panics and
that a Data packet with declared length below 4 is a decode failure; the
code instead computes length - FIXED_DATA_BYTES on usize in the Data
dispatch arm, which underflows and panics.  The failing state is
reachable: request_receive_file from idle yields exactly this Reader
machine, and feeding it a Data packet for the expected block 1 with
declared length 3 panics instead of returning BadPacketReceived. -/
theorem c1_short_data_length_panics :
    Machine.new.request_receive_file [65, 66, 67, 68, 69] [] =
      ⟨PResult.ok 14, readerM,
        [0, 1, 65, 66, 67, 68, 69, 0, 79, 67, 84, 69, 84, 0]⟩ ∧
    readerM.process ([0, 3, 0, 1] ++ zeros 508) 3 =
      ⟨PResult.panic, readerM, []⟩ :=
  ⟨rfl, rfl⟩

/-- Claim C2 (code bug): the spec says the Ack emitted for the final
Data block carries the just-received block number n and the engine then
resets to Idle.  The code calls reset() before serializing the Ack, so
the emitted Ack always carries block 0, and the trailing block increment
then leaves the counter at 1.  Concretely: a Reader expecting block 2
receives the final Data packet for block 2 (payload 8 bytes) and the
engine emits [0, 4, 0, 0] instead of [0, 4, 0, 2]. -/
theorem c2_final_ack_carries_block_zero :
    let m : Machine := ⟨some RequestType.Read, some file508, none, Mode.Binary, 2⟩
    let packet : List Nat := [0, 3, 0, 2] ++ List.replicate 8 90 ++ zeros 500
    m.process packet 12 =
      ⟨PResult.ok 4, ⟨none, none, none, Mode.Binary, 1⟩, [0, 4, 0, 0]⟩ ∧
    [0, 4, 0, 0] ≠ [0, 4, 0, 2] :=
  ⟨rfl, by decide⟩

/-- Claim C3 (code bug): the spec and the comments in constants.rs and
serial.rs say the mode string is matched case-insensitively, but
parse_request compares with String equality, so the lower-case spelling
of OCTET is rejected as a bad packet while the upper-case spelling is
accepted. -/
theorem c3_mode_matching_is_case_sensitive :
    Machine.new.listen_for_request rrqLower =
      (PResult.err TftprsError.BadPacketReceived, Machine.new) ∧
    Machine.new.listen_for_request rrqUpper =
      (PResult.ok [65],
        ⟨some RequestType.Write, none, none, Mode.Binary, 0⟩) :=
  ⟨rfl, rfl⟩

/-- Claim C4 counterexample: the claim says completion (reset to Idle,
zero-length result) happens already when the next offset equals the file
length exactly.  With a 508-byte file, acking block 1 makes the next
offset 508 = file length, yet the engine emits a 4-byte Data packet with
empty payload for block 2 and stays busy; only the following Ack, whose
next offset 1016 strictly exceeds the length, resets with a zero-length
result. -/
theorem c4_exact_multiple_does_not_reset :
    (writerM 1).process (ackPacket 1) 4 =
      ⟨PResult.ok 4, writerM 2, [0, 3, 0, 2]⟩ ∧
    (writerM 2).is_busy = true ∧
    (writerM 2).process (ackPacket 2) 4 =
      ⟨PResult.ok 0, Machine.reset (writerM 2), []⟩ :=
  ⟨rfl, rfl, rfl⟩

/-- Claim C4 as amended: for a write transfer receiving a matching Ack
(block counter below its maximum), the engine resets to Idle and returns
a zero-length result exactly when the next block offset
block * MAX_DATA_SIZE is strictly greater than the file length; at an
offset equal to the file length it instead emits an empty Data packet
and remains busy. -/
theorem c4_write_exhausted_resets (m : Machine) (file received : List Nat)
    (length : Nat)
    (hrt : m.request_type = some RequestType.Write)
    (hfile : m.outgoing_file = some file)
    (hlen : length ≤ MAX_PACKET_SIZE)
    (hop : readU16 received 0 = 4)
    (hblk : readU16 received 2 = m.block)
    (hmax : m.block < 65535)
    (hoff : m.block * MAX_DATA_SIZE > file.length) :
    m.process received length = ⟨PResult.ok 0, m.reset, []⟩ := by
  unfold Machine.process
  rw [hop]
  have hbusy : m.is_busy = true := by simp [Machine.is_busy, hrt]
  have hnlen : ¬ length > MAX_PACKET_SIZE := by omega
  simp only [hbusy, Bool.not_true, Bool.false_eq_true, if_false, hnlen,
    OpCode.fromU16, if_pos, if_neg, reduceIte, hrt]
  unfold Machine.handle_ack_and_send_next_block
  unfold Machine.check_block_on_message
  rw [hblk]
  simp only [ne_eq, not_true_eq_false, reduceIte]
  have hm : ¬ m.block = 65535 := by omega
  simp only [hm, reduceIte]
  unfold Machine.send_block
  simp only [hfile]
  unfold Data.new
  have h0 : ¬ m.block + 1 = 0 := by omega
  have h1 : (m.block + 1 - 1) * MAX_DATA_SIZE > file.length := by
    simpa using hoff
  simp only [h0, reduceIte, gt_iff_lt, h1, if_pos]
  simp [Machine.reset]

/-- Witness for c4_write_exhausted_resets at a concrete input: a Writer
with a 508-byte file, expecting the Ack for block 2, whose next offset
1016 exceeds the file length. -/
theorem c4_write_exhausted_resets_witness :
    (writerM 2).process (ackPacket 2) 4 =
      ⟨PResult.ok 0, Machine.reset (writerM 2), []⟩ :=
  c4_write_exhausted_resets (writerM 2) file508 (ackPacket 2) 4
    rfl rfl (by decide) rfl rfl (by decide) (by decide)

/-- Claim C5 counterexample: the claim says a decoded peer Error packet
is surfaced to the caller as the ErrorResponse(code, message) error
variant.  On a busy Writer receiving an Error packet (code 1, message
"oops"), process instead returns the success value Ok 0 — no error
variant at all — while resetting to Idle.  The engine never constructs
TftprsError.ErrorResponse. -/
theorem c5_error_packet_returns_ok_zero :
    (writerM 1).process errPacket 8 =
      ⟨PResult.ok 0, Machine.reset (writerM 1), []⟩ :=
  rfl

/-- Claim C5 as amended: whenever a busy machine decodes an inbound
packet with the Error opcode 5, it resets to Idle and returns the
zero-length success result Ok 0 to the caller; the peer error code and
message are not surfaced (the ErrorResponse variant is never built). -/
theorem c5_error_packet_resets_idle (m : Machine) (received : List Nat)
    (length : Nat)
    (hbusy : m.is_busy = true)
    (hlen : length ≤ MAX_PACKET_SIZE)
    (hop : readU16 received 0 = 5) :
    m.process received length = ⟨PResult.ok 0, m.reset, []⟩ := by
  unfold Machine.process
  rw [hop]
  have hnlen : ¬ length > MAX_PACKET_SIZE := by omega
  simp [hbusy, hnlen, OpCode.fromU16]

/-- Witness for c5_error_packet_resets_idle: a busy Reader receiving the
same Error packet also resets and returns Ok 0. -/
theorem c5_error_packet_resets_idle_witness :
    readerM.process errPacket 8 =
      ⟨PResult.ok 0, Machine.reset readerM, []⟩ :=
  c5_error_packet_resets_idle readerM errPacket 8 rfl (by decide) rfl

/-- Claim C6 counterexample: after listen_for_request decodes an inbound
Read-Request (local role Writer), the claim says reply_receive_file
fails with NoConnection.  It instead succeeds silently: it attaches the
file, sets the block counter to 0 and emits the Ack [0, 4, 0, 0],
returning Ok 4. -/
theorem c6_reply_receive_after_rrq_succeeds :
    (Machine.new.listen_for_request rrqUpper).2.reply_receive_file [] =
      ⟨PResult.ok 4,
        ⟨some RequestType.Write, some [], none, Mode.Binary, 0⟩,
        [0, 4, 0, 0]⟩ :=
  rfl

/-- Claim C6 as amended: reply_receive_file checks only that the machine
is busy.  On any busy machine — including one whose role is Writer after
an inbound Read-Request — it succeeds, attaching the incoming file,
zeroing the block counter and emitting an Ack for block 0; it fails with
NoConnection exactly when the machine is idle. -/
theorem c6_reply_receive_only_checks_busy (m : Machine) (file : List Nat) :
    (m.is_busy = true →
      m.reply_receive_file file =
        ⟨PResult.ok 4, { m with incoming_file := some file, block := 0 },
          [0, 4, 0, 0]⟩) ∧
    (m.is_busy = false →
      m.reply_receive_file file = ⟨PResult.err TftprsError.NoConnection, m, []⟩) := by
  constructor
  · intro hbusy
    unfold Machine.reply_receive_file
    simp [hbusy, Machine.send_ack, Ack.new, Ack.serialize, u16be]
  · intro hidle
    unfold Machine.reply_receive_file
    simp [hidle]

/-- Witness for c6_reply_receive_only_checks_busy: the machine that
listen_for_request produces from an inbound Read-Request is busy as
Writer, and reply_receive_file on it succeeds with the block-0 Ack. -/
theorem c6_reply_receive_only_checks_busy_witness :
    (⟨some RequestType.Write, none, none, Mode.Binary, 0⟩ :
        Machine).reply_receive_file [] =
      ⟨PResult.ok 4,
        ⟨some RequestType.Write, some [], none, Mode.Binary, 0⟩,
        [0, 4, 0, 0]⟩ :=
  (c6_reply_receive_only_checks_busy
    ⟨some RequestType.Write, none, none, Mode.Binary, 0⟩ []).1 rfl

/-- Claim C7 (confirmed): for a write transfer, an inbound Ack whose
block field differs from the expected block is rejected as
BadPacketReceived, the machine state is returned entirely unchanged and
no outbound bytes are produced. -/
theorem c7_ack_block_mismatch_rejected (m : Machine) (received : List Nat)
    (length : Nat)
    (hrt : m.request_type = some RequestType.Write)
    (hlen : length ≤ MAX_PACKET_SIZE)
    (hop : readU16 received 0 = 4)
    (hblk : readU16 received 2 ≠ m.block) :
    m.process received length =
      ⟨PResult.err TftprsError.BadPacketReceived, m, []⟩ := by
  unfold Machine.process
  rw [hop]
  have hbusy : m.is_busy = true := by simp [Machine.is_busy, hrt]
  have hnlen : ¬ length > MAX_PACKET_SIZE := by omega
  simp only [hbusy, Bool.not_true, Bool.false_eq_true, if_false, hnlen,
    OpCode.fromU16, reduceIte, hrt]
  unfold Machine.handle_ack_and_send_next_block
  unfold Machine.check_block_on_message
  simp only [ne_eq, hblk, not_false_eq_true, reduceIte]
  simp

/-- Witness for c7_ack_block_mismatch_rejected: a Writer expecting the
Ack for block 1 receives an Ack for block 5 and rejects it without any
state change or output. -/
theorem c7_ack_block_mismatch_rejected_witness :
    (writerM 1).process (ackPacket 5) 4 =
      ⟨PResult.err TftprsError.BadPacketReceived, writerM 1, []⟩ :=
  c7_ack_block_mismatch_rejected (writerM 1) (ackPacket 5) 4
    rfl (by decide) rfl (by decide)

/-- Claim C8 counterexample: the claim says an unrecognized leading
opcode is reported as BadPacketReceived with no state change and no
reply bytes.  A busy Writer receiving opcode 6 instead gets back
Ok 17: the engine writes a 17-byte IllegalOperation Error packet with
message "Unknown error" into the transmit buffer and resets itself to
Idle. -/
theorem c8_unknown_opcode_sends_error_packet :
    (writerM 1).process badOpPacket 4 =
      ⟨PResult.ok 17, Machine.reset (writerM 1), unknownErrorPacket⟩ :=
  rfl

/-- Claim C8 as amended: for every busy engine and inbound buffer whose
leading 2-byte opcode is not one of the five legal values, process
emits a 17-byte IllegalOperation Error packet with the default message
"Unknown error", resets the engine to Idle, and returns Ok 17 to the
caller. -/
theorem c8_unknown_opcode_error_reply (m : Machine) (received : List Nat)
    (length : Nat)
    (hbusy : m.is_busy = true)
    (hlen : length ≤ MAX_PACKET_SIZE)
    (hop : OpCode.fromU16 (readU16 received 0) = none) :
    m.process received length =
      ⟨PResult.ok 17, m.reset, unknownErrorPacket⟩ := by
  unfold Machine.process
  rw [hop]
  have hnlen : ¬ length > MAX_PACKET_SIZE := by omega
  simp only [hbusy, Bool.not_true, Bool.false_eq_true, if_false, hnlen,
    reduceIte]
  rfl

/-- Witness for c8_unknown_opcode_error_reply: a busy Reader receiving
opcode 9 gets the same Error-packet reply and reset. -/
theorem c8_unknown_opcode_error_reply_witness :
    readerM.process ([0, 9] ++ zeros 510) 4 =
      ⟨PResult.ok 17, Machine.reset readerM, unknownErrorPacket⟩ :=
  c8_unknown_opcode_error_reply readerM ([0, 9] ++ zeros 510) 4
    rfl (by decide) (by decide)

/-- Claim C9 counterexample: the claim puts the Binary-mode boundary at
502 bytes (503 fails).  The code bound is
filename length ≤ MAX_PACKET_SIZE - FIXED_REQUEST_BYTES - 5 = 503, which
is exactly the stated size formula 2 + len + 1 + 5 + 1 ≤ 512, so a
503-byte filename is accepted and serializes to a full 512-byte packet. -/
theorem c9_filename_503_succeeds :
    Request.new RequestType.Write Mode.Binary (List.replicate 503 72) =
      Except.ok ⟨RequestType.Write, List.replicate 503 72, Mode.Binary⟩ ∧
    (Request.serialize
      ⟨RequestType.Write, List.replicate 503 72, Mode.Binary⟩).length = 512 :=
  ⟨rfl, rfl⟩

/-- Helper for claim C9: the filename_fits check of serial.rs is the
size formula of the spec. -/
theorem filename_fits_iff (mode : Mode) (filename : List Nat) :
    Request.filename_fits mode filename = true ↔
      2 + filename.length + 1 + (mode_string mode).length + 1 ≤
        MAX_PACKET_SIZE := by
  cases mode <;>
    simp [Request.filename_fits, mode_string, TEXT_MODE, BINARY_MODE,
      MAX_PACKET_SIZE, FIXED_REQUEST_BYTES] <;>
    omega

/-- Claim C9 as amended: constructing a Request succeeds iff
2 + len(filename) + 1 + len(mode string) + 1 ≤ 512, and encoding it then
produces exactly that many bytes (0 when the bound fails); the boundary
case in Binary mode is a 503-byte filename succeeding and a 504-byte
filename failing with BadRequestAttempted. -/
theorem c9_request_size_boundary (rt : RequestType) (mode : Mode)
    (filename : List Nat) :
    (Request.new rt mode filename =
      if 2 + filename.length + 1 + (mode_string mode).length + 1 ≤
          MAX_PACKET_SIZE
      then Except.ok ⟨rt, filename, mode⟩
      else Except.error TftprsError.BadRequestAttempted) ∧
    ((Request.serialize ⟨rt, filename, mode⟩).length =
      if 2 + filename.length + 1 + (mode_string mode).length + 1 ≤
          MAX_PACKET_SIZE
      then 2 + filename.length + 1 + (mode_string mode).length + 1
      else 0) ∧
    Request.new rt Mode.Binary (List.replicate 503 72) =
      Except.ok ⟨rt, List.replicate 503 72, Mode.Binary⟩ ∧
    Request.new rt Mode.Binary (List.replicate 504 72) =
      Except.error TftprsError.BadRequestAttempted := by
  have hiff := filename_fits_iff mode filename
  refine ⟨?_, ?_, rfl, rfl⟩
  · cases hb : Request.filename_fits mode filename with
    | true =>
      rw [if_pos (hiff.mp hb)]
      simp [Request.new, hb]
    | false =>
      have h : ¬ 2 + filename.length + 1 + (mode_string mode).length + 1 ≤
          MAX_PACKET_SIZE := by
        intro hc
        rw [hiff.mpr hc] at hb
        simp at hb
      rw [if_neg h]
      simp [Request.new, hb]
  · cases hb : Request.filename_fits mode filename with
    | true =>
      rw [if_pos (hiff.mp hb)]
      simp only [Request.serialize, hb, Bool.not_true, Bool.false_eq_true,
        if_false, reduceIte]
      simp [u16be]
      omega
    | false =>
      have h : ¬ 2 + filename.length + 1 + (mode_string mode).length + 1 ≤
          MAX_PACKET_SIZE := by
        intro hc
        rw [hiff.mpr hc] at hb
        simp at hb
      rw [if_neg h]
      simp [Request.serialize, hb]

/-- Witness for c9_request_size_boundary at a concrete input: a 500-byte
filename in Text mode sits exactly on the bound 2 + 500 + 1 + 8 + 1 = 512
and is accepted. -/
theorem c9_request_size_boundary_witness :
    Request.new RequestType.Read Mode.Text (List.replicate 500 66) =
      Except.ok ⟨RequestType.Read, List.replicate 500 66, Mode.Text⟩ := by
  have h := (c9_request_size_boundary RequestType.Read Mode.Text
    (List.replicate 500 66)).1
  simpa [mode_string, TEXT_MODE, MAX_PACKET_SIZE] using h

/-- Claim C10 (confirmed): send_error is total exactly for messages of
at most MAX_DATA_SIZE = 508 bytes.  A message within the bound produces
the Error packet (opcode 5, code, message) and resets the machine; a
longer message makes the third write_bytes call overrun the 512-byte
transmit buffer and panic before the reset. -/
theorem c10_send_error_message_bound (m : Machine) (code : ErrorCode)
    (message : List Nat) :
    (message.length ≤ MAX_DATA_SIZE →
      m.send_error code (some message) =
        ⟨PResult.ok (4 + message.length), m.reset,
          u16be 5 ++ u16be code.toU16 ++ message⟩) ∧
    (MAX_DATA_SIZE < message.length →
      m.send_error code (some message) = ⟨PResult.panic, m, []⟩) := by
  constructor
  · intro h
    have hn : ¬ 4 + message.length > MAX_PACKET_SIZE := by
      simp only [MAX_DATA_SIZE, MAX_PACKET_SIZE, FIXED_DATA_BYTES] at h ⊢
      omega
    unfold Machine.send_error ErrorResponse.serialize
    simp [ErrorResponse.new, hn, u16be]
    omega
  · intro h
    have hy : 4 + message.length > MAX_PACKET_SIZE := by
      simp only [MAX_DATA_SIZE, MAX_PACKET_SIZE, FIXED_DATA_BYTES] at h ⊢
      omega
    unfold Machine.send_error ErrorResponse.serialize
    simp [ErrorResponse.new, hy]

/-- Witness for c10_send_error_message_bound: a 509-byte message panics;
the 5-byte message "WRONG" with code DiskFull produces the 9-byte packet
of the serial.rs test. -/
theorem c10_send_error_message_bound_witness :
    Machine.new.send_error ErrorCode.DiskFull
        (some (List.replicate 509 65)) =
      ⟨PResult.panic, Machine.new, []⟩ ∧
    Machine.new.send_error ErrorCode.DiskFull
        (some [87, 82, 79, 78, 71]) =
      ⟨PResult.ok 9, Machine.reset Machine.new,
        [0, 5, 0, 3, 87, 82, 79, 78, 71]⟩ := by
  constructor
  · exact (c10_send_error_message_bound Machine.new ErrorCode.DiskFull
      (List.replicate 509 65)).2 (by decide)
  · exact (c10_send_error_message_bound Machine.new ErrorCode.DiskFull
      [87, 82, 79, 78, 71]).1 (by decide)

end Tftprs
